import Mathlib

/-!
Verification development for the grok2api provider adapter layer.

The definitions below are shallow embeddings of the Python source:
* app/services/flow/client.py   (model-key selection, retry loop, project listing, MIME sniffing)
* app/services/flow/image_cache.py (persistent upload cache keyed by SHA-256 of the URL)
* app/api/v1/videos.py          (media-id resolution and generation dispatch)
* app/core/config.py, app/core/env.py (credential resolution)

Machine integers are modelled as Nat with explicit reduction mod 2^32 where
the SHA-256 implementation needs 32-bit wraparound; byte strings are List Nat;
fallible code returns Except.
-/

/-- Error codes raised via GrokApiException in the source (second constructor
argument of GrokApiException, e.g. "HTTP_ERROR", "RATE_LIMIT_ERROR"). -/
inductive GrokApiError where
  | UNSUPPORTED_MODEL
  | HTTP_ERROR (status : Nat)
  | RATE_LIMIT_ERROR
  | NETWORK_ERROR
  | REQUEST_ERROR
  | UPLOAD_ERROR
  | NO_ACCESS_TOKEN
  | CREATE_PROJECT_ERROR
deriving DecidableEq

/-- Python-level exception distinct from GrokApiException: attribute lookup
failure on an object that does not define the attribute. -/
inductive PyExc where
  | attributeError
deriving DecidableEq

/-- The aspect-ratio literal the selector compares against
(client.py line 54: is_landscape = aspect_ratio == "VIDEO_ASPECT_RATIO_LANDSCAPE"). -/
def landscapeLiteral : String := "VIDEO_ASPECT_RATIO_LANDSCAPE"

/-- FlowClient._get_video_model_key (client.py lines 34-117), translated
branch for branch.  A raised GrokApiException("...", "UNSUPPORTED_MODEL")
becomes Except.error. -/
def get_video_model_key (model : String) (ar : String)
    (has_start_image : Bool) (has_end_image : Bool) (has_reference_images : Bool) :
    Except GrokApiError String :=
  let is_landscape := ar == landscapeLiteral
  if has_reference_images then
    if model == "veo-3_1_quality" then
      .error .UNSUPPORTED_MODEL
    else
      let base_key := "veo_3_0_r2v_fast_ultra"
      let base_key := if model == "veo-3_1_relaxed" then base_key ++ "_relaxed" else base_key
      .ok base_key
  else if has_start_image && has_end_image then
    if model == "veo-3_1_fast" then
      .ok (if is_landscape then "veo_3_1_i2v_s_fast_ultra_fl" else "veo_3_1_i2v_s_fast_portrait_ultra_fl")
    else if model == "veo-3_1_relaxed" then
      .ok (if is_landscape then "veo_3_1_i2v_s_fast_ultra_fl_relaxed" else "veo_3_1_i2v_s_fast_portrait_ultra_fl_relaxed")
    else
      .ok (if is_landscape then "veo_3_1_i2v_s_fl" else "veo_3_1_i2v_s_portrait_fl")
  else if has_start_image then
    if model == "veo-3_1_fast" then
      .ok (if is_landscape then "veo_3_1_i2v_s_fast_ultra" else "veo_3_1_i2v_s_fast_portrait")
    else if model == "veo-3_1_relaxed" then
      .ok (if is_landscape then "veo_3_1_i2v_s_fast_ultra_relaxed" else "veo_3_1_i2v_s_fast_portrait_relaxed")
    else
      .ok (if is_landscape then "veo_3_1_i2v_s" else "veo_3_1_i2v_s_portrait")
  else
    if model == "veo-3_1_fast" then
      .ok (if is_landscape then "veo_3_1_t2v_fast_ultra" else "veo_3_1_t2v_fast_portrait_ultra")
    else if model == "veo-3_1_relaxed" then
      .ok (if is_landscape then "veo_3_1_t2v_fast_ultra_relaxed" else "veo_3_1_t2v_fast_portrait_ultra_relaxed")
    else
      .ok "veo_3_1_t2v"

/-- The fixed reference table of plain text-to-video model keys:
6 fast/relaxed entries plus the single orientation-agnostic quality entry. -/
def textToVideoKeyTable : List String :=
  ["veo_3_1_t2v_fast_ultra", "veo_3_1_t2v_fast_portrait_ultra",
   "veo_3_1_t2v_fast_ultra_relaxed", "veo_3_1_t2v_fast_portrait_ultra_relaxed",
   "veo_3_1_t2v"]

example : get_video_model_key "veo-3_1_fast" "VIDEO_ASPECT_RATIO_LANDSCAPE" false false false
    = .ok "veo_3_1_t2v_fast_ultra" := rfl

example : get_video_model_key "veo-3_1_quality" "VIDEO_ASPECT_RATIO_PORTRAIT" true true true
    = .error .UNSUPPORTED_MODEL := rfl

example : get_video_model_key "some-unknown-model" "x" false false true
    = .ok "veo_3_0_r2v_fast_ultra" := rfl

/-! Byte-level helpers: hashlib.sha256(...).hexdigest() (image_cache.py line 43),
base64.b64encode (videos.py line 83), str.strip (config.py lines 131/137),
str.encode("utf-8").  Bytes are Nat values below 256. -/

/-- Reduce to 32 bits (Python ints are unbounded; SHA-256 words wrap mod 2^32). -/
def w32 (n : Nat) : Nat := n % 4294967296

/-- 32-bit right rotation. -/
def rotr32 (x n : Nat) : Nat := w32 ((x >>> n) ||| (x <<< (32 - n)))

/-- SHA-256 round constants. -/
def sha256K : List Nat :=
  [1116352408, 1899447441, 3049323471, 3921009573, 961987163,
   1508970993, 2453635748, 2870763221, 3624381080, 310598401,
   607225278, 1426881987, 1925078388, 2162078206, 2614888103,
   3248222580, 3835390401, 4022224774, 264347078, 604807628,
   770255983, 1249150122, 1555081692, 1996064986, 2554220882,
   2821834349, 2952996808, 3210313671, 3336571891, 3584528711,
   113926993, 338241895, 666307205, 773529912, 1294757372,
   1396182291, 1695183700, 1986661051, 2177026350, 2456956037,
   2730485921, 2820302411, 3259730800, 3345764771, 3516065817,
   3600352804, 4094571909, 275423344, 430227734, 506948616,
   659060556, 883997877, 958139571, 1322822218, 1537002063,
   1747873779, 1955562222, 2024104815, 2227730452, 2361852424,
   2428436474, 2756734187, 3204031479, 3329325298]

/-- SHA-256 initial hash state. -/
def sha256H0 : List Nat :=
  [1779033703, 3144134277, 1013904242, 2773480762, 1359893119,
   2600822924, 528734635, 1541459225]

/-- k bytes of n, big-endian. -/
def beBytes : Nat → Nat → List Nat
  | 0, _ => []
  | k+1, n => ((n >>> (8 * k)) % 256) :: beBytes k n

/-- SHA-256 padding: 0x80, zeros to 56 mod 64, 8-byte big-endian bit length. -/
def sha256Pad (msg : List Nat) : List Nat :=
  let len := msg.length
  let zeros := (64 - ((len + 9) % 64)) % 64
  msg ++ [0x80] ++ List.replicate zeros 0 ++ beBytes 8 (len * 8)

/-- Group bytes into 32-bit big-endian words. -/
def bytesToWords : List Nat → List Nat
  | a :: b :: c :: d :: rest => ((((((a <<< 8) ||| b) <<< 8) ||| c) <<< 8) ||| d) :: bytesToWords rest
  | _ => []

/-- One message-schedule extension step; the word list is kept most-recent first. -/
def sha256ExtendStep (ws : List Nat) : List Nat :=
  let g := fun i => ws.getD i 0
  let s0 := (rotr32 (g 14) 7) ^^^ (rotr32 (g 14) 18) ^^^ ((g 14) >>> 3)
  let s1 := (rotr32 (g 1) 17) ^^^ (rotr32 (g 1) 19) ^^^ ((g 1) >>> 10)
  w32 (g 15 + s0 + g 6 + s1) :: ws

/-- Compress one 64-byte block into the running state (8 words). -/
def sha256Compress (st : List Nat) (block : List Nat) : List Nat :=
  let ws0 := (bytesToWords block).reverse
  let wsAll := (Nat.iterate sha256ExtendStep 48 ws0).reverse
  let step := fun (s : List Nat) (wk : Nat × Nat) =>
    match s with
    | [a, b, c, d, e, f, g, h] =>
      let S1 := (rotr32 e 6) ^^^ (rotr32 e 11) ^^^ (rotr32 e 25)
      let ch := (e &&& f) ^^^ ((e ^^^ 4294967295) &&& g)
      let t1 := w32 (h + S1 + ch + wk.2 + wk.1)
      let S0 := (rotr32 a 2) ^^^ (rotr32 a 13) ^^^ (rotr32 a 22)
      let maj := (a &&& b) ^^^ (a &&& c) ^^^ (b &&& c)
      let t2 := w32 (S0 + maj)
      [w32 (t1 + t2), a, b, c, w32 (d + t1), e, f, g]
    | other => other
  let fin := (wsAll.zip sha256K).foldl step st
  (st.zip fin).map (fun p => w32 (p.1 + p.2))

/-- Fold the compression over all 64-byte blocks; fuel bounds the recursion. -/
def sha256Blocks : Nat → List Nat → List Nat → List Nat
  | 0, st, _ => st
  | _+1, st, [] => st
  | fuel+1, st, l => sha256Blocks fuel (sha256Compress st (l.take 64)) (l.drop 64)

/-- SHA-256 digest of a byte string. -/
def sha256 (msg : List Nat) : List Nat :=
  let padded := sha256Pad msg
  ((sha256Blocks padded.length sha256H0 padded).map (beBytes 4)).flatten

/-- Lowercase hex digit. -/
def hexDigit (n : Nat) : Char := "0123456789abcdef".toList.getD n '0'

/-- Two lowercase hex digits of a byte. -/
def byteToHex (n : Nat) : List Char := [hexDigit (n >>> 4), hexDigit (n % 16)]

/-- Lowercase hex string of a byte string (hexdigest). -/
def bytesToHex (bs : List Nat) : String := String.mk ((bs.map byteToHex).flatten)

/-- UTF-8 encoding of one code point. -/
def charUtf8 (c : Char) : List Nat :=
  let n := c.toNat
  if n < 0x80 then [n]
  else if n < 0x800 then [0xC0 ||| (n >>> 6), 0x80 ||| (n &&& 0x3F)]
  else if n < 0x10000 then
    [0xE0 ||| (n >>> 12), 0x80 ||| ((n >>> 6) &&& 0x3F), 0x80 ||| (n &&& 0x3F)]
  else
    [0xF0 ||| (n >>> 18), 0x80 ||| ((n >>> 12) &&& 0x3F), 0x80 ||| ((n >>> 6) &&& 0x3F),
     0x80 ||| (n &&& 0x3F)]

/-- str.encode("utf-8") over the string's code points. -/
def utf8Bytes (s : String) : List Nat := (s.data.map charUtf8).flatten

/-- hashlib.sha256(url.encode("utf-8")).hexdigest(). -/
def sha256Hex (s : String) : String := bytesToHex (sha256 (utf8Bytes s))

example : sha256Hex "abc" = "ba7816bf8f01cfea414140de5dae2223b00361a396177a9cb410ff61f20015ad" := rfl

example : sha256Hex "" = "e3b0c44298fc1c149afbf4c8996fb92427ae41e4649b934ca495991b7852b855" := rfl

/-- base64 alphabet. -/
def b64Alphabet : List Char :=
  "ABCDEFGHIJKLMNOPQRSTUVWXYZabcdefghijklmnopqrstuvwxyz0123456789+/".toList

/-- base64 alphabet lookup. -/
def b64Char (n : Nat) : Char := b64Alphabet.getD n 'A'

/-- base64 encoding of a byte string, three bytes at a time, '=' padded. -/
def base64Chars : List Nat → List Char
  | [] => []
  | [a] => [b64Char (a >>> 2), b64Char ((a &&& 3) <<< 4), '=', '=']
  | [a, b] => [b64Char (a >>> 2), b64Char (((a &&& 3) <<< 4) ||| (b >>> 4)),
               b64Char ((b &&& 15) <<< 2), '=']
  | a :: b :: c :: rest =>
      b64Char (a >>> 2) :: b64Char (((a &&& 3) <<< 4) ||| (b >>> 4)) ::
      b64Char (((b &&& 15) <<< 2) ||| (c >>> 6)) :: b64Char (c &&& 63) :: base64Chars rest

/-- base64.b64encode(...).decode("utf-8"). -/
def base64Encode (bs : List Nat) : String := String.mk (base64Chars bs)

example : base64Encode [0x4d, 0x61, 0x6e] = "TWFu" := rfl

example : base64Encode [0x4d, 0x61] = "TWE=" := rfl

/-- Python str.strip(): drop leading and trailing whitespace. -/
def pyStrip (s : String) : String :=
  String.mk (((s.data.dropWhile Char.isWhitespace).reverse.dropWhile Char.isWhitespace).reverse)

example : pyStrip "  tok  " = "tok" := rfl

/-! ImageUploadCache (image_cache.py lines 14-100): in-memory dict from
sha256(url) to mediaGenerationId, mirrored whole into one JSON file on every
set; on restart the file is reloaded, an unset or missing file yields the
empty cache. -/

/-- Python dict assignment d[k] = v: replace the existing binding, else append. -/
def dictInsert (k v : String) : List (String × String) → List (String × String)
  | [] => [(k, v)]
  | (k', v') :: rest => if k' == k then (k, v) :: rest else (k', v') :: dictInsert k v rest

/-- State of one ImageUploadCache after init: whether _cache_file was set
(init succeeded; false degrades to in-memory only), the in-memory dict, and
the persisted file contents (none = file absent on disk). -/
structure CacheState where
  cacheFile : Bool
  cache : List (String × String)
  stored : Option (List (String × String))
deriving DecidableEq

/-- ImageUploadCache._hash_url (image_cache.py line 43). -/
def hashUrl (url : String) : String := sha256Hex url

/-- ImageUploadCache.get (lines 75-86): look the digest up in the in-memory dict. -/
def cacheGet (st : CacheState) (url : String) : Option String :=
  st.cache.lookup (hashUrl url)

/-- ImageUploadCache._save_cache (lines 61-73): no-op without a cache file,
else rewrite the whole file with the current dict. -/
def saveCache (st : CacheState) : CacheState :=
  if st.cacheFile then { st with stored := some st.cache } else st

/-- ImageUploadCache.set (lines 88-96): insert under the digest, then persist. -/
def cacheSet (st : CacheState) (url mediaGenerationId : String) : CacheState :=
  saveCache { st with cache := dictInsert (hashUrl url) mediaGenerationId st.cache }

/-- ImageUploadCache._load_cache (lines 45-59): empty dict when the file is
unset or absent, else the parsed file contents. -/
def loadCache (st : CacheState) : CacheState :=
  if st.cacheFile then
    match st.stored with
    | none => { st with cache := [] }
    | some m => { st with cache := m }
  else { st with cache := [] }

/-- Process restart: a fresh instance starts with an empty dict and re-runs
init, which loads from the same persisted file. -/
def restartCache (st : CacheState) : CacheState := loadCache { st with cache := [] }

/-! The shared retry loop of the four generation calls
(FlowClient.generate_video lines 472-524, generate_video_reference 592-644,
generate_video_start 708-760, generate_video_start_end 828-880; the four
blocks are token-for-token identical up to URL and body). -/

/-- MAX_RETRY (client.py line 27). -/
def MAX_RETRY : Nat := 3

/-- RETRY_DELAY (client.py line 28). -/
def RETRY_DELAY : Nat := 5

/-- One upstream outcome of a generation POST: a transport failure
(curl_cffi RequestsError) or an HTTP reply carrying status plus the two body
fields the retry logic reads (error.code and error.status); both none models
an empty or unrelated body. -/
inductive UpstreamOutcome where
  | transportError
  | reply (status : Nat) (bodyCode : Option Nat) (bodyStatus : Option String)
deriving DecidableEq

/-- The body reports resource exhaustion (client.py line 488):
error.code == 429 or error.status == "RESOURCE_EXHAUSTED". -/
def isRateLimitBody (bodyCode : Option Nat) (bodyStatus : Option String) : Bool :=
  bodyCode == some 429 || bodyStatus == some "RESOURCE_EXHAUSTED"

/-- A 429 reply whose body reports resource exhaustion. -/
def isRateLimit (o : UpstreamOutcome) : Bool :=
  match o with
  | .transportError => false
  | .reply status bc bs => status == 429 && isRateLimitBody bc bs

/-- An outcome the loop retries: a rate-limit reply or a transport failure. -/
def isRetryable (o : UpstreamOutcome) : Bool :=
  isRateLimit o || o == .transportError

/-- Normalized outcome of one generation call. -/
inductive GenResult where
  | submitted
  | rateLimited
  | networkError
  | httpError (status : Nat)
deriving DecidableEq

/-- Outcome plus the observable trace: network round-trips performed and the
asyncio.sleep delays taken between them, in order. -/
structure GenTrace where
  result : GenResult
  attempts : Nat
  delays : List Nat
deriving DecidableEq

/-- The body of "for attempt in range(MAX_RETRY)" (client.py lines 473-524),
indexed by the current attempt and the remaining iterations (fuel); fuel > 0
is exactly the source's "attempt < MAX_RETRY - 1".  The fuel-0 case is
unreachable from generateCall since the last iteration always returns or
raises. -/
def retryLoop (outcomes : Nat → UpstreamOutcome) : Nat → Nat → GenTrace
  | _, 0 => ⟨.networkError, 0, []⟩
  | attempt, fuel+1 =>
    match outcomes attempt with
    | .transportError =>
      if fuel > 0 then
        let t := retryLoop outcomes (attempt+1) fuel
        ⟨t.result, t.attempts + 1, RETRY_DELAY * (attempt + 1) :: t.delays⟩
      else ⟨.networkError, 1, []⟩
    | .reply status bc bs =>
      if status == 429 && isRateLimitBody bc bs then
        if fuel > 0 then
          let t := retryLoop outcomes (attempt+1) fuel
          ⟨t.result, t.attempts + 1, RETRY_DELAY * (attempt + 1) :: t.delays⟩
        else ⟨.rateLimited, 1, []⟩
      else if status != 200 then ⟨.httpError status, 1, []⟩
      else ⟨.submitted, 1, []⟩

/-- One generation call under a given sequence of upstream outcomes. -/
def generateCall (outcomes : Nat → UpstreamOutcome) : GenTrace :=
  retryLoop outcomes 0 MAX_RETRY

/-! FlowClient.get_latest_project (client.py lines 283-315). -/

/-- One entry of the upstream project list; both fields are read defensively
with dict.get, hence Option. -/
structure FlowProject where
  projectId : Option String
  creationTime : Option String
deriving DecidableEq

/-- Sort key (client.py line 305): x.get("creationTime", ""). -/
def projKey (p : FlowProject) : String := p.creationTime.getD ""

/-- Python string comparison: lexicographic by code point. -/
def charListLt : List Char → List Char → Bool
  | [], [] => false
  | [], _ :: _ => true
  | _ :: _, [] => false
  | a :: as, b :: bs =>
    if a.toNat < b.toNat then true
    else if b.toNat < a.toNat then false
    else charListLt as bs

/-- Python s1 < s2 on strings. -/
def strLt (a b : String) : Bool := charListLt a.data b.data

/-- Stable descending insertion: the new element goes before the first element
with a strictly smaller key, mirroring Python sorted(..., reverse=True). -/
def insertDescBy (x : FlowProject) : List FlowProject → List FlowProject
  | [] => [x]
  | y :: ys => if strLt (projKey y) (projKey x) then x :: y :: ys else y :: insertDescBy x ys

/-- sorted(projects, key=creationTime, reverse=True). -/
def sortDescBy (l : List FlowProject) : List FlowProject := l.foldr insertDescBy []

/-- FlowClient.get_latest_project, as a function of the outcome of
get_user_projects: the enclosing try/except catches every exception and
returns None (lines 313-315); on a reply, empty list gives None, otherwise
the projectId of the head of the descending sort. -/
def get_latest_project (resp : Except GrokApiError (List FlowProject)) : Option String :=
  match resp with
  | .error _ => none
  | .ok projects =>
    if projects.isEmpty then none
    else
      match (sortDescBy projects).head? with
      | none => none
      | some p => p.projectId

/-- Modelled from the spec's words, for comparison with get_latest_project:
"lists projects, sorts by creation time descending, returns the head or none"
together with "ProviderClient ... never swallow errors", i.e. a listing
failure propagates to the caller instead of being converted to none. -/
def get_latest_project_claimed (resp : Except GrokApiError (List FlowProject)) :
    Except GrokApiError (Option String) :=
  match resp with
  | .error e => .error e
  | .ok projects =>
    .ok (if projects.isEmpty then none else ((sortDescBy projects).head?.bind (·.projectId)))

/-! Credential resolution (config.py lines 128-148 over env.py lines 11-41). -/

/-- The Env instance (env.py): the class body defines exactly five properties,
all of them r2_*; each wraps os.getenv, hence Option. -/
structure EnvModel where
  r2_endpoint_url : Option String
  r2_access_key_id : Option String
  r2_secret_access_key : Option String
  r2_bucket_name : Option String
  r2_public_url : Option String
deriving DecidableEq

/-- Python attribute lookup on the Env instance: the five defined properties
resolve to their os.getenv result; any other attribute name — in particular
flow_session_token and flow_csrf_token, which config.py lines 136 and 147
read — raises AttributeError, since env.py defines no such attribute. -/
def envGetattr (e : EnvModel) (name : String) : Except PyExc (Option String) :=
  if name == "r2_endpoint_url" then .ok e.r2_endpoint_url
  else if name == "r2_access_key_id" then .ok e.r2_access_key_id
  else if name == "r2_secret_access_key" then .ok e.r2_secret_access_key
  else if name == "r2_bucket_name" then .ok e.r2_bucket_name
  else if name == "r2_public_url" then .ok e.r2_public_url
  else .error .attributeError

/-- ConfigManager.get_session_token (config.py lines 128-137): trimmed runtime
configuration value if non-empty, else (env.flow_session_token or "").strip(). -/
def get_session_token (flow_config : List (String × String)) (e : EnvModel) :
    Except PyExc String :=
  let session_token := pyStrip ((flow_config.lookup "session_token").getD "")
  if session_token != "" then .ok session_token
  else
    match envGetattr e "flow_session_token" with
    | .error exc => .error exc
    | .ok v => .ok (pyStrip (v.getD ""))

/-- ConfigManager.get_csrf_token (config.py lines 139-148), same shape. -/
def get_csrf_token (flow_config : List (String × String)) (e : EnvModel) :
    Except PyExc String :=
  let csrf_token := pyStrip ((flow_config.lookup "csrf_token").getD "")
  if csrf_token != "" then .ok csrf_token
  else
    match envGetattr e "flow_csrf_token" with
    | .error exc => .error exc
    | .ok v => .ok (pyStrip (v.getD ""))

/-! MIME detection in FlowClient.download_image (client.py lines 969-986) and
FlowClient.download_video (lines 1027-1042), as functions of the content-type
header (none = header absent) and the body bytes. -/

/-- The Python "in" test on sequences: needle occurs contiguously in haystack. -/
def containsSeq [BEq a] (needle : List a) : List a → Bool
  | [] => needle.isEmpty
  | x :: rest => needle.isPrefixOf (x :: rest) || containsSeq needle rest

/-- download_image MIME selection: response.headers.get("content-type",
"image/jpeg"); if "image/" occurs in it, use it, else sniff the first TEN
bytes: JPEG ff d8 ff prefix, PNG 89 50 4e 47 prefix, WEBP = RIFF prefix and
the bytes WEBP somewhere in those ten, default image/jpeg. -/
def detect_image_mime (contentTypeHeader : Option String) (body : List Nat) : String :=
  let content_type := contentTypeHeader.getD "image/jpeg"
  if containsSeq "image/".data content_type.data then content_type
  else
    let content := body.take 10
    if [0xff, 0xd8, 0xff].isPrefixOf content then "image/jpeg"
    else if [0x89, 0x50, 0x4e, 0x47].isPrefixOf content then "image/png"
    else if [0x52, 0x49, 0x46, 0x46].isPrefixOf content
            && containsSeq [0x57, 0x45, 0x42, 0x50] content then "image/webp"
    else "image/jpeg"

/-- download_video MIME selection: header default video/mp4; else sniff the
first TWELVE bytes: 00 00 00 20 66 74 79 70 prefix for mp4, RIFF prefix with
the bytes WEBM inside for webm, default video/mp4. -/
def detect_video_mime (contentTypeHeader : Option String) (body : List Nat) : String :=
  let content_type := contentTypeHeader.getD "video/mp4"
  if containsSeq "video/".data content_type.data then content_type
  else
    let content := body.take 12
    if [0x00, 0x00, 0x00, 0x20, 0x66, 0x74, 0x79, 0x70].isPrefixOf content then "video/mp4"
    else if [0x52, 0x49, 0x46, 0x46].isPrefixOf content
            && containsSeq [0x57, 0x45, 0x42, 0x4d] content then "video/webm"
    else "video/mp4"

/-- Modelled from the claim's magic-number description of image sniffing:
JPEG FFD8FF, PNG 89504E47, and WEBP as RIFF....WEBP, i.e. RIFF at offsets
0-3 and WEBP at offsets 8-11; anything else defaults to image/jpeg. -/
def claim_image_sniff (body : List Nat) : String :=
  if [0xff, 0xd8, 0xff].isPrefixOf body then "image/jpeg"
  else if [0x89, 0x50, 0x4e, 0x47].isPrefixOf body then "image/png"
  else if [0x52, 0x49, 0x46, 0x46].isPrefixOf body
          && (body.drop 8).take 4 == [0x57, 0x45, 0x42, 0x50] then "image/webp"
  else "image/jpeg"

/-- Modelled from the claim: header wins when it names an image type, else the
leading bytes are sniffed by magic number. -/
def claim_image_mime (contentTypeHeader : Option String) (body : List Nat) : String :=
  match contentTypeHeader with
  | some ct => if containsSeq "image/".data ct.data then ct else claim_image_sniff body
  | none => claim_image_sniff body

/-! Media-id resolution and generation dispatch (videos.py). -/

/-- _convert_video_aspect_ratio_to_image (videos.py lines 60-68). -/
def convert_video_aspect_to_image (v : String) : String :=
  if v == "VIDEO_ASPECT_RATIO_LANDSCAPE" then "IMAGE_ASPECT_RATIO_LANDSCAPE"
  else if v == "VIDEO_ASPECT_RATIO_PORTRAIT" then "IMAGE_ASPECT_RATIO_PORTRAIT"
  else "IMAGE_ASPECT_RATIO_LANDSCAPE"

/-- FlowClient.upload_image (client.py lines 1051-1122) distilled to its data
flow: the oracle ul gives the mediaGenerationId field of the upstream reply
for the given (base64 bytes, mime, aspect); an empty id models the missing
field, which raises UPLOAD_ERROR (line 1112). -/
def upload_image (ul : String → String → String → String)
    (image_base64 mime ar : String) : Except GrokApiError String :=
  let mid := ul image_base64 mime ar
  if mid == "" then .error .UPLOAD_ERROR else .ok mid

/-- Result of one media-id resolution: the id, the cache afterwards, and how
many download respectively upload calls were made. -/
structure ResolveOut where
  mediaId : String
  st : CacheState
  downloads : Nat
  uploads : Nat
deriving DecidableEq

/-- _get_media_id_from_url (videos.py lines 71-100): cache hit (Python
truthiness of the cached value) returns it with no network call; otherwise
one download_image (oracle dl gives its bytes and mime), base64 encode, one
upload_image, then cache the id. -/
def get_media_id_from_url (dl : String → List Nat × String)
    (ul : String → String → String → String)
    (st : CacheState) (url : String) (ar : String) : Except GrokApiError ResolveOut :=
  let cached := (cacheGet st url).getD ""
  if cached != "" then .ok ⟨cached, st, 0, 0⟩
  else
    let dlr := dl url
    let image_base64 := base64Encode dlr.1
    let image_aspect := convert_video_aspect_to_image ar
    match upload_image ul image_base64 dlr.2 image_aspect with
    | .error e => .error e
    | .ok mid => .ok ⟨mid, cacheSet st url mid, 1, 1⟩

/-- Image roles accepted by the video route (videos.py line 33). -/
inductive ImageRole where
  | first_frame
  | last_frame
  | reference_image
deriving DecidableEq

/-- One entry of the request's images list. -/
structure VideoImageItem where
  url : String
  role : ImageRole
deriving DecidableEq

/-- Accumulators of the image loop plus the cache state it threads. -/
structure ProcessOut where
  first_frame_id : Option String
  last_frame_id : Option String
  reference_image_ids : List String
  st : CacheState
deriving DecidableEq

/-- The image loop of generate_video (videos.py lines 209-226): resolve every
image URL in order, assigning by role (later first/last frames overwrite,
reference ids append). -/
def processImages (dl : String → List Nat × String)
    (ul : String → String → String → String) (ar : String) :
    CacheState → Option String → Option String → List String → List VideoImageItem →
    Except GrokApiError ProcessOut
  | st, f, l, refs, [] => .ok ⟨f, l, refs, st⟩
  | st, f, l, refs, img :: rest =>
    match get_media_id_from_url dl ul st img.url ar with
    | .error e => .error e
    | .ok r =>
      match img.role with
      | .first_frame => processImages dl ul ar r.st (some r.mediaId) l refs rest
      | .last_frame => processImages dl ul ar r.st f (some r.mediaId) refs rest
      | .reference_image => processImages dl ul ar r.st f l (refs ++ [r.mediaId]) rest

/-- Which generation call the route dispatches to. -/
inductive VideoDispatch where
  | startEnd (start_image_id end_image_id : String)
  | startOnly (start_image_id : String)
  | referenceImages (ids : List String)
  | text
deriving DecidableEq

/-- The dispatch chain of generate_video (videos.py lines 229-272), on Python
truthiness of the accumulators. -/
def dispatch_generation (f l : Option String) (refs : List String) : VideoDispatch :=
  if f.getD "" != "" && l.getD "" != "" then .startEnd (f.getD "") (l.getD "")
  else if f.getD "" != "" then .startOnly (f.getD "")
  else if !refs.isEmpty then .referenceImages refs
  else .text

/-- requests[0] of the generation body: the fields common to the four calls
plus the image fields each attaches (client.py lines 449-459, 562-579,
682-695, 799-815); the plain text call sets none of the image fields. -/
structure VideoGenRequest where
  aspect : String
  seed : Nat
  prompt : String
  videoModelKey : String
  sceneId : String
  startImage : Option String
  endImage : Option String
  referenceImages : List String
deriving DecidableEq

/-- The request each dispatch target builds. -/
def build_video_request (d : VideoDispatch) (ar : String) (seed : Nat)
    (prompt sceneId modelKey : String) : VideoGenRequest :=
  match d with
  | .text => ⟨ar, seed, prompt, modelKey, sceneId, none, none, []⟩
  | .startOnly s => ⟨ar, seed, prompt, modelKey, sceneId, some s, none, []⟩
  | .startEnd s e => ⟨ar, seed, prompt, modelKey, sceneId, some s, some e, []⟩
  | .referenceImages ids => ⟨ar, seed, prompt, modelKey, sceneId, none, none, ids⟩

/-! Theorems for the frozen claims. -/

/-- Claim C2: for every aspect ratio and every combination of start/end-image
flags, when references are present the selector rejects the quality tier with
UNSUPPORTED_MODEL (the reference branch is checked before any start/end-frame
case), returns veo_3_0_r2v_fast_ultra for the fast tier, and
veo_3_0_r2v_fast_ultra_relaxed for the relaxed tier. -/
theorem c2_reference_selection (ar : String) (hs he : Bool) :
    get_video_model_key "veo-3_1_quality" ar hs he true = .error .UNSUPPORTED_MODEL
    ∧ get_video_model_key "veo-3_1_fast" ar hs he true = .ok "veo_3_0_r2v_fast_ultra"
    ∧ get_video_model_key "veo-3_1_relaxed" ar hs he true = .ok "veo_3_0_r2v_fast_ultra_relaxed" :=
  ⟨rfl, rfl, rfl⟩

/-- Claim C3: on the plain text-to-video path the selector returns exactly the
keys of the fixed reference table, the quality tier has one
orientation-agnostic key, and orientation is decided solely by string
equality of the aspect-ratio argument with the landscape literal (any other
value is portrait); every returned key lies in the table. -/
theorem c3_text_to_video_selection (ar : String) :
    get_video_model_key "veo-3_1_fast" ar false false false
      = .ok (if ar = landscapeLiteral then "veo_3_1_t2v_fast_ultra"
             else "veo_3_1_t2v_fast_portrait_ultra")
    ∧ get_video_model_key "veo-3_1_relaxed" ar false false false
      = .ok (if ar = landscapeLiteral then "veo_3_1_t2v_fast_ultra_relaxed"
             else "veo_3_1_t2v_fast_portrait_ultra_relaxed")
    ∧ get_video_model_key "veo-3_1_quality" ar false false false = .ok "veo_3_1_t2v"
    ∧ (∀ model, model ∈ ["veo-3_1_fast", "veo-3_1_relaxed", "veo-3_1_quality"] →
        ∀ key, get_video_model_key model ar false false false = .ok key →
          key ∈ textToVideoKeyTable) := by
  by_cases h : ar = landscapeLiteral
  · refine ⟨by simp [get_video_model_key, h], by simp [get_video_model_key, h],
      by simp [get_video_model_key, h], ?_⟩
    intro model hm key hk
    simp only [List.mem_cons, List.mem_singleton] at hm
    rcases hm with hm | hm | hm | hm <;> first
      | (subst hm; simp [get_video_model_key, h] at hk; simp [← hk, textToVideoKeyTable])
      | cases hm
  · refine ⟨by simp [get_video_model_key, h], by simp [get_video_model_key, h],
      by simp [get_video_model_key, h], ?_⟩
    intro model hm key hk
    simp only [List.mem_cons, List.mem_singleton] at hm
    rcases hm with hm | hm | hm | hm <;> first
      | (subst hm; simp [get_video_model_key, h] at hk; simp [← hk, textToVideoKeyTable])
      | cases hm

/-- Claim C3 witness at a concrete input. -/
theorem c3_text_to_video_selection_witness :
    ("veo-3_1_fast" : String) ∈ ["veo-3_1_fast", "veo-3_1_relaxed", "veo-3_1_quality"]
    ∧ get_video_model_key "veo-3_1_fast" "VIDEO_ASPECT_RATIO_PORTRAIT" false false false
        = .ok "veo_3_1_t2v_fast_portrait_ultra"
    ∧ ("veo_3_1_t2v_fast_portrait_ultra" : String) ∈ textToVideoKeyTable :=
  ⟨by decide, rfl,
    (c3_text_to_video_selection "VIDEO_ASPECT_RATIO_PORTRAIT").2.2.2
      "veo-3_1_fast" (by decide) "veo_3_1_t2v_fast_portrait_ultra" rfl⟩

/-- Claim C10 counterexample: a tier string that is neither the fast nor the
relaxed literal does NOT behave like the quality tier in the references
branch — quality raises UNSUPPORTED_MODEL there, while the unrecognized tier
"veo-x" returns the fast reference key. -/
theorem c10_counterexample :
    get_video_model_key "veo-x" "VIDEO_ASPECT_RATIO_LANDSCAPE" false false true
      = .ok "veo_3_0_r2v_fast_ultra"
    ∧ get_video_model_key "veo-3_1_quality" "VIDEO_ASPECT_RATIO_LANDSCAPE" false false true
      = .error .UNSUPPORTED_MODEL :=
  ⟨rfl, rfl⟩

/-- Claim C10 amended: for every tier string other than the fast and relaxed
literals, the selector behaves exactly as the quality tier in the three
non-reference branches; in the references branch only the quality literal is
rejected — any other unrecognized tier behaves as the fast tier and returns
veo_3_0_r2v_fast_ultra — so the selector is total and never fails for an
unrecognized tier name. -/
theorem c10_unrecognized_tier (model ar : String) (hs he : Bool)
    (hf : model ≠ "veo-3_1_fast") (hr : model ≠ "veo-3_1_relaxed") :
    get_video_model_key model ar hs he false
      = get_video_model_key "veo-3_1_quality" ar hs he false
    ∧ (model ≠ "veo-3_1_quality" →
        get_video_model_key model ar hs he true = .ok "veo_3_0_r2v_fast_ultra")
    ∧ (model ≠ "veo-3_1_quality" → ∀ refs : Bool,
        ∃ key, get_video_model_key model ar hs he refs = .ok key) := by
  refine ⟨?_, ?_, ?_⟩
  · cases hs <;> cases he <;> simp [get_video_model_key, hf, hr]
  · intro hq; simp [get_video_model_key, hq, hr]
  · intro hq refs
    cases refs
    · rw [show get_video_model_key model ar hs he false
          = get_video_model_key "veo-3_1_quality" ar hs he false by
            cases hs <;> cases he <;> simp [get_video_model_key, hf, hr]]
      cases hs <;> cases he <;> exact ⟨_, rfl⟩
    · exact ⟨"veo_3_0_r2v_fast_ultra", by simp [get_video_model_key, hq, hr]⟩

/-- Claim C10 amended witness at a concrete input. -/
theorem c10_unrecognized_tier_witness :
    ("veo-9" : String) ≠ "veo-3_1_fast" ∧ ("veo-9" : String) ≠ "veo-3_1_relaxed"
    ∧ (get_video_model_key "veo-9" "x" true false false
        = get_video_model_key "veo-3_1_quality" "x" true false false
      ∧ (("veo-9" : String) ≠ "veo-3_1_quality" →
          get_video_model_key "veo-9" "x" true false true = .ok "veo_3_0_r2v_fast_ultra")
      ∧ (("veo-9" : String) ≠ "veo-3_1_quality" → ∀ refs : Bool,
          ∃ key, get_video_model_key "veo-9" "x" true false refs = .ok key)) :=
  ⟨by decide, by decide,
    c10_unrecognized_tier "veo-9" "x" true false (by decide) (by decide)⟩

/-- A retryable outcome before the last attempt: sleep the linear-backoff
delay and run the remaining iterations. -/
theorem retryLoop_step_retryable (o : Nat → UpstreamOutcome) (a n : Nat)
    (h : isRetryable (o a) = true) (hn : 0 < n) :
    retryLoop o a (n + 1)
      = ⟨(retryLoop o (a + 1) n).result, (retryLoop o (a + 1) n).attempts + 1,
         RETRY_DELAY * (a + 1) :: (retryLoop o (a + 1) n).delays⟩ := by
  cases ho : o a with
  | transportError => simp [retryLoop, ho, hn]
  | reply s bc bs =>
    have hrl : (s == 429 && isRateLimitBody bc bs) = true := by
      rw [ho] at h
      simpa [isRetryable, isRateLimit] using h
    simp [retryLoop, ho, hrl, hn]

/-- A rate-limit reply on the last attempt raises RATE_LIMIT_ERROR. -/
theorem retryLoop_last_rateLimit (o : Nat → UpstreamOutcome) (a : Nat)
    (h : isRateLimit (o a) = true) :
    retryLoop o a 1 = ⟨.rateLimited, 1, []⟩ := by
  cases ho : o a with
  | transportError => rw [ho] at h; simp [isRateLimit] at h
  | reply s bc bs =>
    have hrl : (s == 429 && isRateLimitBody bc bs) = true := by
      rw [ho] at h; simpa [isRateLimit] using h
    simp [retryLoop, ho, hrl]

/-- A transport failure on the last attempt raises NETWORK_ERROR. -/
theorem retryLoop_last_transport (o : Nat → UpstreamOutcome) (a : Nat)
    (h : o a = .transportError) :
    retryLoop o a 1 = ⟨.networkError, 1, []⟩ := by
  simp [retryLoop, h]

/-- Any non-200 reply that is not a rate-limit signal is surfaced immediately
as HTTP_ERROR with its status, regardless of remaining attempts. -/
theorem retryLoop_http (o : Nat → UpstreamOutcome) (a n : Nat) (s : Nat)
    (bc : Option Nat) (bs : Option String) (h : o a = .reply s bc bs)
    (hrl : isRateLimit (o a) = false) (hs : s ≠ 200) :
    retryLoop o a (n + 1) = ⟨.httpError s, 1, []⟩ := by
  rw [h] at hrl
  simp only [isRateLimit] at hrl
  simp [retryLoop, h, hrl, hs]

/-- A 200 reply returns the response at once. -/
theorem retryLoop_ok (o : Nat → UpstreamOutcome) (a n : Nat)
    (bc : Option Nat) (bs : Option String) (h : o a = .reply 200 bc bs) :
    retryLoop o a (n + 1) = ⟨.submitted, 1, []⟩ := by
  simp [retryLoop, h, isRateLimitBody]

/-- Three retryable outcomes exhaust the bound: 3 attempts, delays 5 then 10,
and the surfaced error matches the kind of the final outcome. -/
theorem generateCall_all_retryable (o : Nat → UpstreamOutcome)
    (h : ∀ i, i < 3 → isRetryable (o i) = true) :
    generateCall o
      = ⟨if isRateLimit (o 2) then .rateLimited else .networkError, 3, [5, 10]⟩ := by
  have s0 : retryLoop o 0 3
      = ⟨(retryLoop o 1 2).result, (retryLoop o 1 2).attempts + 1,
         5 :: (retryLoop o 1 2).delays⟩ :=
    retryLoop_step_retryable o 0 2 (h 0 (by decide)) (by decide)
  have s1 : retryLoop o 1 2
      = ⟨(retryLoop o 2 1).result, (retryLoop o 2 1).attempts + 1,
         10 :: (retryLoop o 2 1).delays⟩ :=
    retryLoop_step_retryable o 1 1 (h 1 (by decide)) (by decide)
  by_cases h2 : isRateLimit (o 2) = true
  · have t2 := retryLoop_last_rateLimit o 2 h2
    simp [generateCall, MAX_RETRY, s0, s1, t2, h2]
  · have htr : o 2 = .transportError := by
      have := h 2 (by decide)
      simp only [isRetryable, Bool.or_eq_true, beq_iff_eq] at this
      rcases this with hx | hx
      · exact absurd hx h2
      · exact hx
    have t2 := retryLoop_last_transport o 2 htr
    simp [generateCall, MAX_RETRY, s0, s1, t2, h2]

/-- Claim C1: the retry policy of the generation calls (the identical retry
block of generate_video, generate_video_reference, generate_video_start and
generate_video_start_end): any sequence of retryable outcomes — HTTP 429
whose body reports code 429 or status RESOURCE_EXHAUSTED, or a transport
failure — is retried up to 3 attempts total with backoff delay 5×attemptNumber
between attempts, surfacing RATE_LIMIT_ERROR respectively NETWORK_ERROR on
exhaustion; any other non-200 reply is surfaced immediately as HTTP_ERROR
with its status and no retry; a rate-limit reply followed by a 200 succeeds
after exactly 2 attempts with a single delay of 5. -/
theorem c1_retry_policy (outcomes : Nat → UpstreamOutcome) :
    ((∀ i, i < 3 → isRetryable (outcomes i) = true) →
      generateCall outcomes
        = ⟨if isRateLimit (outcomes 2) then .rateLimited else .networkError, 3, [5, 10]⟩)
    ∧ ((∀ i, i < 3 → isRateLimit (outcomes i) = true) →
        generateCall outcomes = ⟨.rateLimited, 3, [5, 10]⟩)
    ∧ ((∀ i, i < 3 → outcomes i = .transportError) →
        generateCall outcomes = ⟨.networkError, 3, [5, 10]⟩)
    ∧ (∀ s bc bs, outcomes 0 = .reply s bc bs → isRateLimit (outcomes 0) = false →
        s ≠ 200 → generateCall outcomes = ⟨.httpError s, 1, []⟩)
    ∧ (isRateLimit (outcomes 0) = true →
        ∀ bc bs, outcomes 1 = .reply 200 bc bs →
          generateCall outcomes = ⟨.submitted, 2, [5]⟩) := by
  refine ⟨?_, ?_, ?_, ?_, ?_⟩
  · exact generateCall_all_retryable outcomes
  · intro h
    have := generateCall_all_retryable outcomes
      (fun i hi => by simp [isRetryable, h i hi])
    rw [this, if_pos (h 2 (by decide))]
  · intro h
    have := generateCall_all_retryable outcomes
      (fun i hi => by simp [isRetryable, h i hi])
    rw [this, if_neg]
    rw [h 2 (by decide)]
    simp [isRateLimit]
  · intro s bc bs h0 hrl hs
    have : retryLoop outcomes 0 3 = ⟨.httpError s, 1, []⟩ :=
      retryLoop_http outcomes 0 2 s bc bs h0 hrl hs
    simpa [generateCall, MAX_RETRY] using this
  · intro h0 bc bs h1
    have s0 : retryLoop outcomes 0 3
        = ⟨(retryLoop outcomes 1 2).result, (retryLoop outcomes 1 2).attempts + 1,
           5 :: (retryLoop outcomes 1 2).delays⟩ :=
      retryLoop_step_retryable outcomes 0 2 (by simp [isRetryable, h0]) (by decide)
    have s1 : retryLoop outcomes 1 2 = ⟨.submitted, 1, []⟩ :=
      retryLoop_ok outcomes 1 1 bc bs h1
    simp [generateCall, MAX_RETRY, s0, s1]

/-- Claim C1 witness: a rate-limit reply followed by a 200 succeeds after
exactly 2 attempts with one 5-unit delay. -/
theorem c1_retry_policy_witness :
    isRateLimit ((fun i => if i == 0 then .reply 429 (some 429) none
                           else .reply 200 none none : Nat → UpstreamOutcome) 0) = true
    ∧ ((fun i => if i == 0 then .reply 429 (some 429) none
                 else .reply 200 none none : Nat → UpstreamOutcome) 1
        = .reply 200 none none)
    ∧ generateCall (fun i => if i == 0 then .reply 429 (some 429) none
                             else .reply 200 none none)
        = ⟨.submitted, 2, [5]⟩ :=
  ⟨by decide, by decide,
    (c1_retry_policy (fun i => if i == 0 then .reply 429 (some 429) none
                               else .reply 200 none none)).2.2.2.2
      (by decide) none none (by decide)⟩

/-- charListLt never holds reflexively. -/
theorem charListLt_irrefl (l : List Char) : charListLt l l = false := by
  induction l with
  | nil => rfl
  | cons a as ih => simp [charListLt, ih]

/-- charListLt is transitive. -/
theorem charListLt_trans :
    ∀ x y z : List Char, charListLt x y = true → charListLt y z = true →
      charListLt x z = true := by
  intro x
  induction x with
  | nil =>
    intro y z h1 h2
    cases y with
    | nil => exact h2
    | cons b bs =>
      cases z with
      | nil => simp [charListLt] at h2
      | cons c cs => rfl
  | cons a as ih =>
    intro y z h1 h2
    cases y with
    | nil => simp [charListLt] at h1
    | cons b bs =>
      cases z with
      | nil => simp [charListLt] at h2
      | cons c cs =>
        simp only [charListLt] at h1 h2 ⊢
        by_cases hab : a.toNat < b.toNat
        · by_cases hbc : b.toNat < c.toNat
          · rw [if_pos (by omega)]
          · rw [if_neg hbc] at h2
            by_cases hcb : c.toNat < b.toNat
            · rw [if_pos hcb] at h2; cases h2
            · rw [if_pos (by omega)]
        · rw [if_neg hab] at h1
          by_cases hba : b.toNat < a.toNat
          · rw [if_pos hba] at h1; cases h1
          · rw [if_neg hba] at h1
            by_cases hbc : b.toNat < c.toNat
            · rw [if_pos (by omega)]
            · rw [if_neg hbc] at h2
              by_cases hcb : c.toNat < b.toNat
              · rw [if_pos hcb] at h2; cases h2
              · rw [if_neg hcb] at h2
                rw [if_neg (by omega), if_neg (by omega)]
                exact ih bs cs h1 h2

/-- strLt never holds reflexively. -/
theorem strLt_irrefl (a : String) : strLt a a = false := charListLt_irrefl a.data

/-- strLt is transitive. -/
theorem strLt_trans {a b c : String} (h1 : strLt a b = true) (h2 : strLt b c = true) :
    strLt a c = true := charListLt_trans a.data b.data c.data h1 h2

/-- The head of the descending sort is a member of the list and carries a
maximal creationTime key: no member is strictly above it. -/
theorem sortDescBy_head_spec (l : List FlowProject) (hne : l ≠ []) :
    ∃ p, (sortDescBy l).head? = some p ∧ p ∈ l
      ∧ ∀ q ∈ l, strLt (projKey p) (projKey q) = false := by
  induction l with
  | nil => exact absurd rfl hne
  | cons a rest ih =>
    by_cases hr : rest = []
    · subst hr
      refine ⟨a, by simp [sortDescBy, insertDescBy], by simp, ?_⟩
      intro q hq
      simp at hq
      subst hq
      exact strLt_irrefl _
    · obtain ⟨p, hp1, hp2, hp3⟩ := ih hr
      obtain ⟨tail, htail⟩ : ∃ t, sortDescBy rest = p :: t := by
        cases h : sortDescBy rest with
        | nil => rw [h] at hp1; simp at hp1
        | cons x t => rw [h] at hp1; simp at hp1; exact ⟨t, by rw [hp1]⟩
      have hstep : sortDescBy (a :: rest) = insertDescBy a (p :: tail) := by
        simp [sortDescBy] at htail ⊢
        rw [htail]
      by_cases hcmp : strLt (projKey p) (projKey a) = true
      · refine ⟨a, ?_, by simp, ?_⟩
        · rw [hstep, insertDescBy, if_pos hcmp]
          rfl
        · intro q hq
          rcases List.mem_cons.mp hq with h | h
          · subst h; exact strLt_irrefl _
          · by_cases haq : strLt (projKey a) (projKey q) = true
            · have := strLt_trans hcmp haq
              rw [hp3 q h] at this
              cases this
            · exact Bool.eq_false_iff.mpr haq
      · have hcf : strLt (projKey p) (projKey a) = false := Bool.eq_false_iff.mpr hcmp
        refine ⟨p, ?_, List.mem_cons_of_mem a hp2, ?_⟩
        · rw [hstep, insertDescBy, if_neg (by rw [hcf]; exact Bool.false_ne_true)]
          rfl
        · intro q hq
          rcases List.mem_cons.mp hq with h | h
          · subst h; exact hcf
          · exact hp3 q h

/-- Claim C5 counterexample: a listing failure is swallowed, not propagated —
get_latest_project maps a provider error to none, while the spec's
errors-propagate reading returns the error itself. -/
theorem c5_counterexample :
    get_latest_project (.error .NETWORK_ERROR) = none
    ∧ get_latest_project_claimed (.error .NETWORK_ERROR) = .error .NETWORK_ERROR
    ∧ Except.ok (get_latest_project (.error .NETWORK_ERROR))
        ≠ get_latest_project_claimed (.error .NETWORK_ERROR) :=
  ⟨rfl, rfl, fun h => Except.noConfusion h⟩

/-- Claim C5 amended: get_latest_project returns none when the upstream list
is empty AND ALSO when listing fails (the enclosing except swallows every
provider error and returns none); on a non-empty list it returns the
projectId field of the head of the list sorted by creationTime descending,
which is a member with maximal creationTime. -/
theorem c5_latest_project (e : GrokApiError) (projects : List FlowProject) :
    get_latest_project (.error e) = none
    ∧ get_latest_project (.ok []) = none
    ∧ (projects ≠ [] →
        ∃ p, p ∈ projects ∧ get_latest_project (.ok projects) = p.projectId
          ∧ ∀ q ∈ projects, strLt (projKey p) (projKey q) = false) := by
  refine ⟨rfl, rfl, ?_⟩
  intro hne
  obtain ⟨p, hp1, hp2, hp3⟩ := sortDescBy_head_spec projects hne
  refine ⟨p, hp2, ?_, hp3⟩
  have hemp : projects.isEmpty = false := by
    cases projects with
    | nil => exact absurd rfl hne
    | cons x t => rfl
  simp [get_latest_project, hemp, hp1]

/-- Claim C5 amended witness at concrete inputs. -/
theorem c5_latest_project_witness :
    ([(⟨some "p2", some "2024-06"⟩ : FlowProject), ⟨some "p1", some "2024-01"⟩] ≠
        ([] : List FlowProject))
    ∧ get_latest_project
        (.ok [⟨some "p2", some "2024-06"⟩, ⟨some "p1", some "2024-01"⟩]) = some "p2" := by
  refine ⟨by decide, ?_⟩
  obtain ⟨p, hp1, hp2, hp3⟩ :=
    (c5_latest_project .NETWORK_ERROR
      [⟨some "p2", some "2024-06"⟩, ⟨some "p1", some "2024-01"⟩]).2.2 (by decide)
  have hmax := hp3 ⟨some "p2", some "2024-06"⟩ (List.mem_cons_self _ _)
  rcases List.mem_cons.mp hp1 with h | h
  · rw [hp2, h]
  · rcases List.mem_cons.mp h with h1 | h1
    · subst h1
      exact absurd hmax (by decide)
    · simp at h1

/-- Looking up the key just inserted by dict assignment yields the new value. -/
theorem lookup_dictInsert_self (k v : String) (m : List (String × String)) :
    (dictInsert k v m).lookup k = some v := by
  induction m with
  | nil => simp [dictInsert, List.lookup]
  | cons hd tl ih =>
    obtain ⟨k', v'⟩ := hd
    by_cases h : k' = k
    · simp [dictInsert, h, List.lookup]
    · have h1 : (k' == k) = false := beq_eq_false_iff_ne.mpr h
      have h2 : (k == k') = false := beq_eq_false_iff_ne.mpr (Ne.symm h)
      simp [dictInsert, h1, List.lookup, h2, ih]

/-- saveCache only touches the persisted copy, never the in-memory dict. -/
theorem saveCache_cache (st : CacheState) : (saveCache st).cache = st.cache := by
  unfold saveCache
  split <;> rfl

/-- saveCache keeps the cacheFile flag. -/
theorem saveCache_cacheFile (st : CacheState) : (saveCache st).cacheFile = st.cacheFile := by
  unfold saveCache
  split <;> rfl

/-- Claim C6: set(url, id) followed by get(url) returns id; with a configured
cache file the same holds after the persisted index is reloaded by a fresh
instance (durability across restart); and the store is keyed by the SHA-256
hex digest of the URL, not the raw URL. -/
theorem c6_cache_round_trip (st : CacheState) (url mid : String) :
    cacheGet (cacheSet st url mid) url = some mid
    ∧ (st.cacheFile = true → cacheGet (restartCache (cacheSet st url mid)) url = some mid)
    ∧ (cacheSet st url mid).cache = dictInsert (sha256Hex url) mid st.cache := by
  refine ⟨?_, ?_, ?_⟩
  · unfold cacheGet cacheSet
    rw [saveCache_cache]
    exact lookup_dictInsert_self _ _ _
  · intro h
    unfold cacheGet restartCache loadCache cacheSet saveCache
    simp [h, hashUrl, lookup_dictInsert_self]
  · unfold cacheSet
    rw [saveCache_cache]
    rfl

/-- Claim C6 witness at concrete inputs. -/
theorem c6_cache_round_trip_witness :
    (CacheState.mk true [] none).cacheFile = true
    ∧ cacheGet (cacheSet ⟨true, [], none⟩ "http://img.example/a?tok=1" "media-1")
        "http://img.example/a?tok=1" = some "media-1"
    ∧ cacheGet (restartCache (cacheSet ⟨true, [], none⟩ "http://img.example/a?tok=1" "media-1"))
        "http://img.example/a?tok=1" = some "media-1"
    ∧ (cacheSet ⟨true, [], none⟩ "http://img.example/a?tok=1" "media-1").cache
        = dictInsert (sha256Hex "http://img.example/a?tok=1") "media-1" [] :=
  ⟨rfl,
    (c6_cache_round_trip ⟨true, [], none⟩ "http://img.example/a?tok=1" "media-1").1,
    (c6_cache_round_trip ⟨true, [], none⟩ "http://img.example/a?tok=1" "media-1").2.1 rfl,
    (c6_cache_round_trip ⟨true, [], none⟩ "http://img.example/a?tok=1" "media-1").2.2⟩

/-- Every value stored in the cache dict is non-empty; all states the system
itself builds satisfy this, since ids come from upload_image which raises on a
missing mediaGenerationId. -/
def WFCache (st : CacheState) : Prop := ∀ p ∈ st.cache, p.2 ≠ ""

/-- A successful lookup finds a binding of the dict. -/
theorem lookup_mem_pairs {m : List (String × String)} {k v : String}
    (h : m.lookup k = some v) : (k, v) ∈ m := by
  induction m with
  | nil => simp [List.lookup] at h
  | cons hd tl ih =>
    obtain ⟨k', v'⟩ := hd
    by_cases hk : k = k'
    · subst hk
      simp [List.lookup] at h
      simp [h]
    · have hb : (k == k') = false := beq_eq_false_iff_ne.mpr hk
      simp [List.lookup, hb] at h
      exact List.mem_cons_of_mem _ (ih h)

/-- Claim C7: media-id resolution performs zero download and zero upload calls
and returns the cached id unchanged when the URL is in the cache; when it is
absent it performs exactly one download and one upload, stores the id, and a
subsequent resolution of the same URL returns that id with no further calls. -/
theorem c7_media_resolution (dl : String → List Nat × String)
    (ul : String → String → String → String) (st : CacheState) (url ar : String)
    (hwf : WFCache st) :
    (∀ cid, cacheGet st url = some cid →
      get_media_id_from_url dl ul st url ar = .ok ⟨cid, st, 0, 0⟩)
    ∧ (cacheGet st url = none →
      ∀ mid, ul (base64Encode (dl url).1) (dl url).2 (convert_video_aspect_to_image ar) = mid →
        mid ≠ "" →
        get_media_id_from_url dl ul st url ar = .ok ⟨mid, cacheSet st url mid, 1, 1⟩
        ∧ get_media_id_from_url dl ul (cacheSet st url mid) url ar
            = .ok ⟨mid, cacheSet st url mid, 0, 0⟩) := by
  constructor
  · intro cid hc
    have hne : cid ≠ "" := hwf (hashUrl url, cid) (lookup_mem_pairs hc)
    unfold get_media_id_from_url
    rw [hc]
    simp [hne]
  · intro hc mid hul hne
    constructor
    · unfold get_media_id_from_url
      rw [hc]
      simp [upload_image, hul, hne]
    · have hc2 : cacheGet (cacheSet st url mid) url = some mid := by
        unfold cacheGet cacheSet
        rw [saveCache_cache]
        exact lookup_dictInsert_self _ _ _
      unfold get_media_id_from_url
      rw [hc2]
      simp [hne]

/-- Claim C7 witness: a miss resolves by one download and one upload, then a
hit resolves from the cache with no calls. -/
theorem c7_media_resolution_witness :
    WFCache ⟨true, [], none⟩
    ∧ cacheGet ⟨true, [], none⟩ "http://x/img" = none
    ∧ ("media-7" : String) ≠ ""
    ∧ get_media_id_from_url (fun _ => ([1, 2, 3], "image/png")) (fun _ _ _ => "media-7")
        ⟨true, [], none⟩ "http://x/img" "VIDEO_ASPECT_RATIO_PORTRAIT"
        = .ok ⟨"media-7", cacheSet ⟨true, [], none⟩ "http://x/img" "media-7", 1, 1⟩
    ∧ get_media_id_from_url (fun _ => ([1, 2, 3], "image/png")) (fun _ _ _ => "media-7")
        (cacheSet ⟨true, [], none⟩ "http://x/img" "media-7") "http://x/img"
        "VIDEO_ASPECT_RATIO_PORTRAIT"
        = .ok ⟨"media-7", cacheSet ⟨true, [], none⟩ "http://x/img" "media-7", 0, 0⟩ :=
  ⟨fun p hp => absurd hp (List.not_mem_nil p), rfl, by decide,
    ((c7_media_resolution (fun _ => ([1, 2, 3], "image/png")) (fun _ _ _ => "media-7")
        ⟨true, [], none⟩ "http://x/img" "VIDEO_ASPECT_RATIO_PORTRAIT"
        (fun p hp => absurd hp (List.not_mem_nil p))).2
      rfl "media-7" rfl (by decide)).1,
    ((c7_media_resolution (fun _ => ([1, 2, 3], "image/png")) (fun _ _ _ => "media-7")
        ⟨true, [], none⟩ "http://x/img" "VIDEO_ASPECT_RATIO_PORTRAIT"
        (fun p hp => absurd hp (List.not_mem_nil p))).2
      rfl "media-7" rfl (by decide)).2⟩

/-- Claim C4: the non-empty explicit configuration value is returned trimmed;
but whenever it trims to empty, the fallback reads env.flow_session_token
(resp. env.flow_csrf_token), an attribute the Env class does not define, so
the call raises AttributeError instead of returning the trimmed environment
default or the empty string. -/
theorem c4_credential_resolution :
    get_session_token [("session_token", "  tok  ")] ⟨none, none, none, none, none⟩ = .ok "tok"
    ∧ get_session_token [("session_token", "   ")] ⟨none, none, none, none, none⟩
        = .error .attributeError
    ∧ get_session_token [] ⟨none, none, none, none, none⟩ = .error .attributeError
    ∧ get_csrf_token [] ⟨none, none, none, none, none⟩ = .error .attributeError
    ∧ get_session_token [("session_token", "")]
        ⟨some "e", some "e", some "e", some "e", some "e"⟩ = .error .attributeError :=
  ⟨rfl, rfl, rfl, rfl, rfl⟩

/-- Claim C8: header naming an image type wins (JPEG and PNG magic sniffing
also behave as documented), but the image sniffer slices only the first TEN
bytes before searching for the WEBP fourcc that canonically sits at offsets
8-11, so a standard RIFF....WEBP body is mis-detected as image/jpeg where the
claim requires image/webp; likewise an absent content-type header defaults to
image/jpeg without sniffing, so a PNG body with no header is reported as
image/jpeg. -/
theorem c8_mime_detection :
    detect_image_mime (some "image/gif") [0x89, 0x50, 0x4e, 0x47] = "image/gif"
    ∧ detect_image_mime (some "binary/x") [0xff, 0xd8, 0xff, 0xe0] = "image/jpeg"
    ∧ detect_image_mime (some "binary/x") [0x89, 0x50, 0x4e, 0x47, 0x0d, 0x0a] = "image/png"
    ∧ detect_image_mime (some "application/octet-stream")
        [0x52, 0x49, 0x46, 0x46, 0x1a, 0x00, 0x00, 0x00, 0x57, 0x45, 0x42, 0x50,
         0x56, 0x50, 0x38, 0x20] = "image/jpeg"
    ∧ claim_image_mime (some "application/octet-stream")
        [0x52, 0x49, 0x46, 0x46, 0x1a, 0x00, 0x00, 0x00, 0x57, 0x45, 0x42, 0x50,
         0x56, 0x50, 0x38, 0x20] = "image/webp"
    ∧ detect_image_mime none [0x89, 0x50, 0x4e, 0x47, 0x0d, 0x0a] = "image/jpeg"
    ∧ claim_image_mime none [0x89, 0x50, 0x4e, 0x47, 0x0d, 0x0a] = "image/png"
    ∧ detect_video_mime (some "binary/x")
        [0x00, 0x00, 0x00, 0x20, 0x66, 0x74, 0x79, 0x70, 0x69, 0x73, 0x6f, 0x6d]
        = "video/mp4"
    ∧ detect_video_mime (some "binary/x")
        [0x52, 0x49, 0x46, 0x46, 0x00, 0x00, 0x00, 0x00, 0x57, 0x45, 0x42, 0x4d]
        = "video/webm"
    ∧ detect_video_mime (some "binary/x") [0x01, 0x02] = "video/mp4" :=
  ⟨rfl, rfl, rfl, rfl, rfl, rfl, rfl, rfl, rfl, rfl⟩

/-- The image loop keeps first_frame_id and reference_image_ids untouched when
every image carries the last_frame role, and sets last_frame_id as soon as the
list is non-empty. -/
theorem processImages_last_frame_only (dl : String → List Nat × String)
    (ul : String → String → String → String) (ar : String) :
    ∀ (imgs : List VideoImageItem) (st : CacheState) (f l : Option String)
      (refs : List String) (out : ProcessOut),
      (∀ i ∈ imgs, i.role = ImageRole.last_frame) →
      processImages dl ul ar st f l refs imgs = .ok out →
      out.first_frame_id = f ∧ out.reference_image_ids = refs
      ∧ (imgs = [] → out.last_frame_id = l)
      ∧ (imgs ≠ [] → out.last_frame_id ≠ none) := by
  intro imgs
  induction imgs with
  | nil =>
    intro st f l refs out h hp
    simp [processImages] at hp
    rw [← hp]
    exact ⟨rfl, rfl, fun _ => rfl, fun hc => absurd rfl hc⟩
  | cons a rest ih =>
    intro st f l refs out h hp
    have ha : a.role = ImageRole.last_frame := h a (List.mem_cons_self a rest)
    cases hg : get_media_id_from_url dl ul st a.url ar with
    | error e =>
      rw [processImages, hg] at hp
      cases hp
    | ok r =>
      rw [processImages, hg, ha] at hp
      have hrest : ∀ i ∈ rest, i.role = ImageRole.last_frame :=
        fun i hi => h i (List.mem_cons_of_mem a hi)
      obtain ⟨h1, h2, h3, h4⟩ := ih r.st f (some r.mediaId) refs out hrest hp
      refine ⟨h1, h2, fun hc => absurd hc (by simp), fun _ => ?_⟩
      by_cases hr : rest = []
      · rw [h3 hr]
        simp
      · exact h4 hr

/-- Claim C9: when the attached images contain a last_frame role but no
first_frame and no reference_image roles, the orchestrator resolves the
image's media id (the loop threads it into last_frame_id) yet dispatches the
plain text-to-video call, whose request attaches no image field. -/
theorem c9_last_frame_dispatch (dl : String → List Nat × String)
    (ul : String → String → String → String) (ar ar2 : String) (st : CacheState)
    (imgs : List VideoImageItem) (out : ProcessOut) (seed : Nat)
    (prompt sceneId modelKey : String)
    (hroles : ∀ i ∈ imgs, i.role = ImageRole.last_frame)
    (hne : imgs ≠ [])
    (hrun : processImages dl ul ar st none none [] imgs = .ok out) :
    out.first_frame_id = none
    ∧ out.reference_image_ids = []
    ∧ out.last_frame_id ≠ none
    ∧ dispatch_generation out.first_frame_id out.last_frame_id out.reference_image_ids
        = .text
    ∧ (build_video_request
        (dispatch_generation out.first_frame_id out.last_frame_id out.reference_image_ids)
        ar2 seed prompt sceneId modelKey).startImage = none
    ∧ (build_video_request
        (dispatch_generation out.first_frame_id out.last_frame_id out.reference_image_ids)
        ar2 seed prompt sceneId modelKey).endImage = none
    ∧ (build_video_request
        (dispatch_generation out.first_frame_id out.last_frame_id out.reference_image_ids)
        ar2 seed prompt sceneId modelKey).referenceImages = [] := by
  obtain ⟨h1, h2, -, h4⟩ :=
    processImages_last_frame_only dl ul ar imgs st none none [] out hroles hrun
  have hdisp : dispatch_generation out.first_frame_id out.last_frame_id
      out.reference_image_ids = .text := by
    rw [h1, h2]
    rfl
  exact ⟨h1, h2, h4 hne, hdisp, by rw [hdisp]; rfl, by rw [hdisp]; rfl, by rw [hdisp]; rfl⟩

/-- Claim C9 witness: one last_frame image, fresh cache. -/
theorem c9_last_frame_dispatch_witness :
    (∀ i ∈ [(⟨"http://x/last", ImageRole.last_frame⟩ : VideoImageItem)],
      i.role = ImageRole.last_frame)
    ∧ ([(⟨"http://x/last", ImageRole.last_frame⟩ : VideoImageItem)] ≠ [])
    ∧ processImages (fun _ => ([9], "image/jpeg")) (fun _ _ _ => "mid-9")
        "VIDEO_ASPECT_RATIO_LANDSCAPE" ⟨true, [], none⟩ none none []
        [⟨"http://x/last", ImageRole.last_frame⟩]
        = .ok ⟨none, some "mid-9", [],
            cacheSet ⟨true, [], none⟩ "http://x/last" "mid-9"⟩
    ∧ dispatch_generation none (some "mid-9") [] = .text
    ∧ (build_video_request (dispatch_generation none (some "mid-9") []) "VIDEO_ASPECT_RATIO_LANDSCAPE"
        7 "a cat" "scene-1" "veo_3_1_t2v_fast_ultra").startImage = none := by
  have hmain :=
    c9_last_frame_dispatch (fun _ => ([9], "image/jpeg")) (fun _ _ _ => "mid-9")
      "VIDEO_ASPECT_RATIO_LANDSCAPE" "VIDEO_ASPECT_RATIO_LANDSCAPE" ⟨true, [], none⟩
      [⟨"http://x/last", ImageRole.last_frame⟩]
      ⟨none, some "mid-9", [], cacheSet ⟨true, [], none⟩ "http://x/last" "mid-9"⟩
      7 "a cat" "scene-1" "veo_3_1_t2v_fast_ultra"
      (by intro i hi; simp at hi; rw [hi]) (by decide) rfl
  exact ⟨by intro i hi; simp at hi; rw [hi], by decide, rfl, hmain.2.2.2.1, hmain.2.2.2.2.1⟩
